import Mathlib

/-!
# Verification of the edenred-cli balance client

A shallow embedding of the Go sources of `wilderbridge/edenred-cli`:
the API client in `internal/edenred` (sign-in, benefits fetch, balance
normalization) and the invocation shell in `cmd/edenred/main.go`.

Modelling conventions:
* Go `float64` balances are modelled as exact rationals (`ℚ`); the claims
  under study are about which arithmetic is applied (divide by 100 or
  use as-is), not about binary rounding.
* The two HTTP exchanges are modelled by an environment (`Env`) that fixes
  the outcome of each call (transport error, or status + body); functions
  that perform network requests also return the list of network events
  they emitted, so that call ordering and request cookies are observable.
* `json.Number` is a raw string; its `Int64`/`Float64` methods are
  `strconv.ParseInt(s, 10, 64)` / `strconv.ParseFloat(s, 64)`, modelled
  below on the decimal forms that the JSON decoder can produce (optional
  sign, digits, optional fraction and exponent); the hexadecimal,
  infinity/NaN and underscore forms of `strconv` cannot reach
  `balanceFloat64` through the JSON decoder and are left out.
-/

namespace Edenred

attribute [local semireducible] Rat.mul Rat.inv Rat.add Rat.sub

set_option maxRecDepth 2000

/-- The fields of the Go struct `signInResponse` (JSON tags
`sessionToken`, `refreshToken`, `expiresIn`, `error`, `errorCode`,
`fieldName`). -/
structure SignInResponse where
  SessionToken : String
  RefreshToken : String
  ExpiresIn : Int
  Error : String
  ErrorCode : String
  FieldName : String
  deriving DecidableEq, Repr

/-- The fields of the Go struct `userBenefit`; `Balance` is the raw
`json.Number` string. -/
structure UserBenefit where
  CardType : String
  WalletType : String
  CardStatus : String
  Balance : String
  MobileAvailable : Bool
  MobilePayment : Bool
  ExpectsRenewedCard : Option String
  AccountActive : Bool
  deriving DecidableEq, Repr

/-- The Go struct `userBenefitsResponse`. -/
structure UserBenefitsResponse where
  Benefits : List UserBenefit
  deriving DecidableEq, Repr

/-- The Go struct `Balances`; the two `float64` fields are modelled as
exact rationals. -/
structure Balances where
  Lunch : ℚ
  Virike : ℚ
  deriving DecidableEq, Repr

/-- A convenience constructor: a wallet with the given type and raw
balance string, all other response fields at their zero values. -/
def mkWallet (walletType balance : String) : UserBenefit :=
  ⟨"", walletType, "", balance, false, false, none, false⟩

instance exceptDecEq {ε α : Type} [DecidableEq ε] [DecidableEq α] :
    DecidableEq (Except ε α) := fun a b =>
  match a, b with
  | .error e, .error f => decidable_of_iff (e = f) (by simp)
  | .error _, .ok _ => isFalse (by simp)
  | .ok _, .error _ => isFalse (by simp)
  | .ok x, .ok y => decidable_of_iff (x = y) (by simp)

/-- Outcome of one HTTP exchange, fixed by the environment: either the
transport fails, or a response arrives with a status code, a raw body
(used for error excerpts) and the result of JSON-decoding the body
into `α` (the decode is only attempted by the code on status 200). -/
inductive HttpOutcome (α : Type) where
  | transportError (msg : String)
  | response (status : Nat) (rawBody : String) (decoded : Except String α)
  deriving DecidableEq, Repr

/-- The network environment of one invocation: the outcome of the
`/signin` call and of the `/users/me/user-benefits` call. -/
structure Env where
  signInResult : HttpOutcome SignInResponse
  benefitsResult : HttpOutcome UserBenefitsResponse
  deriving DecidableEq, Repr

/-- An observable network event: an outbound request.  The benefits call
records the cookies attached to the request as name/value pairs, in the
order `http.Request.AddCookie` was called. -/
inductive NetEvent where
  | signInCall
  | benefitsCall (cookies : List (String × String))
  deriving DecidableEq, Repr

/-- Go `readRespBody`: read at most 512 bytes of the body and trim
surrounding whitespace. -/
def readRespBody (s : String) : String :=
  (s.take 512).trim

/-- Numeric value of a list of decimal digit characters (most
significant first). -/
def digitsToNat (cs : List Char) : Nat :=
  cs.foldl (fun acc c => acc * 10 + (c.toNat - 48)) 0

/-- Split off the longest leading run of decimal digits. -/
def takeDigits (cs : List Char) : List Char × List Char :=
  cs.span fun c => c.isDigit

/-- A non-empty all-digit character list, evaluated; `none` otherwise.
This is the digit-string core of `strconv.ParseInt(s, 10, 64)`. -/
def parseNatDigits (cs : List Char) : Option Nat :=
  if cs.isEmpty then none
  else if cs.all (fun c => c.isDigit) then some (digitsToNat cs) else none

/-- `strconv.ParseInt(s, 10, 64)` as used by `json.Number.Int64`:
an optional sign followed by decimal digits, rejected (`none`) when the
value does not fit a signed 64-bit integer. -/
def parseInt64 (s : String) : Option Int :=
  let signed : List Char → Bool × List Char := fun cs =>
    match cs with
    | '+' :: rest => (false, rest)
    | '-' :: rest => (true, rest)
    | rest => (false, rest)
  let (neg, digits) := signed s.data
  match parseNatDigits digits with
  | none => none
  | some v =>
    let i : Int := if neg then -(v : Int) else (v : Int)
    if -(2 ^ 63) ≤ i ∧ i ≤ 2 ^ 63 - 1 then some i else none

/-- The decimal grammar of `strconv.ParseFloat(s, 64)` on the forms the
JSON decoder can produce: optional sign, digits with an optional
fractional part (at least one digit overall in the mantissa), and an
optional exponent part.  Returns the exact rational value. -/
def parseFloatSyntax (s : String) : Option ℚ :=
  let mantissa : List Char → Option (ℚ × List Char) := fun cs =>
    let (ip, rest) := takeDigits cs
    match rest with
    | '.' :: r =>
      let (fp, rest2) := takeDigits r
      if ip.isEmpty ∧ fp.isEmpty then none
      else some ((digitsToNat ip : ℚ) + (digitsToNat fp : ℚ) / (10 : ℚ) ^ fp.length, rest2)
    | _ =>
      if ip.isEmpty then none else some ((digitsToNat ip : ℚ), rest)
  let exponent : ℚ → List Char → Option ℚ := fun m cs =>
    match cs with
    | [] => some m
    | c :: r =>
      if c = 'e' ∨ c = 'E' then
        let (esign, r2) : Int × List Char :=
          match r with
          | '+' :: r3 => (1, r3)
          | '-' :: r3 => (-1, r3)
          | r3 => (1, r3)
        let (ed, r4) := takeDigits r2
        if ed.isEmpty ∨ ¬ r4.isEmpty then none
        else some (m * (10 : ℚ) ^ (esign * (digitsToNat ed : Int)))
      else none
  let core : List Char → Option ℚ := fun cs =>
    match mantissa cs with
    | none => none
    | some (m, rest) => exponent m rest
  match s.data with
  | '+' :: rest => core rest
  | '-' :: rest => (core rest).map (fun q => -q)
  | rest => core rest

/-- Smallest magnitude that rounds to `+Inf` in IEEE binary64
(round-to-nearest-even): values at or above it make `strconv.ParseFloat`
report a range error. -/
def float64OverflowBound : ℚ :=
  (((2 ^ 54 - 1) * 2 ^ 970 : Nat) : ℚ)

/-- `strconv.ParseFloat(s, 64)` as used by `json.Number.Float64`:
syntax errors and overflow to infinity are errors, carrying the
`strconv` error text. -/
def parseFloat (s : String) : Except String ℚ :=
  match parseFloatSyntax s with
  | none =>
    .error ("strconv.ParseFloat: parsing \"" ++ s ++ "\": invalid syntax")
  | some q =>
    if float64OverflowBound ≤ |q| then
      .error ("strconv.ParseFloat: parsing \"" ++ s ++ "\": value out of range")
    else .ok q

/-- Go `userBenefit.balanceFloat64`: an empty balance is 0; a value that
parses as an `int64` is a count of minor units, divided by 100;
otherwise the general numeric parse is used as-is; its failure is the
returned error. -/
def balanceFloat64 (b : UserBenefit) : Except String ℚ :=
  if b.Balance = "" then .ok 0
  else
    match parseInt64 b.Balance with
    | some i => .ok ((i : ℚ) / 100)
    | none =>
      match parseFloat b.Balance with
      | .error e => .error e
      | .ok f => .ok f

/-- Go `Client.signIn`: one `/signin` POST.  A transport failure, a
status other than 200, a JSON decode failure, and an empty session
token are errors; when the token is empty a non-empty `error` field of
the body supplies the message.  (Marshalling the payload and building
the request cannot fail for string credentials and a well-formed URL,
so those error branches are vacuous in the model.) -/
def signIn (env : Env) : List NetEvent × Except String SignInResponse :=
  ([NetEvent.signInCall],
   match env.signInResult with
   | .transportError e => .error ("execute request: " ++ e)
   | .response status rawBody decoded =>
     if status ≠ 200 then
       .error ("unexpected status " ++ toString status ++ ": " ++ readRespBody rawBody)
     else
       match decoded with
       | .error e => .error ("decode response: " ++ e)
       | .ok r =>
         if r.SessionToken = "" then
           if r.Error ≠ "" then .error r.Error
           else .error "empty session token in response"
         else .ok r)

/-- The cookies `Client.getUserBenefits` attaches to the benefits
request: `AddCookie` is called only for a non-empty session token and
only for a non-empty refresh token, in that order. -/
def benefitCookies (sessionToken refreshToken : String) : List (String × String) :=
  (if sessionToken ≠ "" then [("X-Access-Token", sessionToken)] else []) ++
  (if refreshToken ≠ "" then [("X-Access-Refresh-Token", refreshToken)] else [])

/-- Go `Client.getUserBenefits`: one GET of `/users/me/user-benefits`
carrying the cookies of `benefitCookies`; a transport failure, a status
other than 200 and a decode failure are errors, otherwise the decoded
wallet list is returned. -/
def getUserBenefits (sessionToken refreshToken : String) (env : Env) :
    List NetEvent × Except String (List UserBenefit) :=
  ([NetEvent.benefitsCall (benefitCookies sessionToken refreshToken)],
   match env.benefitsResult with
   | .transportError e => .error ("execute request: " ++ e)
   | .response status rawBody decoded =>
     if status ≠ 200 then
       .error ("unexpected status " ++ toString status ++ ": " ++ readRespBody rawBody)
     else
       match decoded with
       | .error e => .error ("decode response: " ++ e)
       | .ok r => .ok r.Benefits)

/-- The wallet loop of `Client.FetchBalances`: every wallet's balance is
parsed first; a parse failure aborts with the wallet type in the
message; otherwise the `main` / `wellness` switch assigns the amount
and any other type leaves the accumulator unchanged. -/
def foldBenefits : List UserBenefit → Balances → Except String Balances
  | [], acc => .ok acc
  | b :: rest, acc =>
    match balanceFloat64 b with
    | .error e => .error ("parse " ++ b.WalletType ++ " balance: " ++ e)
    | .ok amount =>
      foldBenefits rest
        (if b.WalletType = "main" then { acc with Lunch := amount }
         else if b.WalletType = "wellness" then { acc with Virike := amount }
         else acc)

/-- Go `Client.FetchBalances`: require non-empty credentials, sign in
(wrapping a failure with `signin failed: `), fetch the benefits with
the session and refresh tokens (wrapping a failure with
`fetching balances failed: `), then fold the wallets into the two
balances starting from zero. -/
def FetchBalances (username password : String) (env : Env) :
    List NetEvent × Except String Balances :=
  if username = "" ∨ password = "" then
    ([], .error "username and password are required")
  else
    let s1 := signIn env
    match s1.2 with
    | .error e => (s1.1, .error ("signin failed: " ++ e))
    | .ok session =>
      let g := getUserBenefits session.SessionToken session.RefreshToken env
      match g.2 with
      | .error e => (s1.1 ++ g.1, .error ("fetching balances failed: " ++ e))
      | .ok benefits => (s1.1 ++ g.1, foldBenefits benefits ⟨0, 0⟩)

/-- Go `strings.ToLower` as applied to the format flag: lower-case the
string character by character (the recognized formats are ASCII). -/
def toLowerStr (s : String) : String :=
  ⟨s.data.map Char.toLower⟩

/-- What `run` in `cmd/edenred/main.go` writes on success: the two-line
text form or the JSON object, each carrying the two amounts. -/
inductive RunOutput where
  | textOut (lunch virike : ℚ)
  | jsonOut (lunch virike : ℚ)
  deriving DecidableEq, Repr

/-- Go `run` in `cmd/edenred/main.go`: validate credentials, call
`FetchBalances`, and only then dispatch on the lower-cased format,
rejecting anything other than `text` and `json` with a usage error.
(Encoding the JSON payload of two floats cannot fail, so that error
branch is vacuous in the model.) -/
def run (username password format : String) (env : Env) :
    List NetEvent × Except String RunOutput :=
  if username = "" ∨ password = "" then
    ([], .error "username and password are required")
  else
    let fr := FetchBalances username password env
    match fr.2 with
    | .error e => (fr.1, .error e)
    | .ok balances =>
      if toLowerStr format = "text" then
        (fr.1, .ok (RunOutput.textOut balances.Lunch balances.Virike))
      else if toLowerStr format = "json" then
        (fr.1, .ok (RunOutput.jsonOut balances.Lunch balances.Virike))
      else
        (fr.1, .error ("unsupported format \"" ++ format ++ "\""))

/-! ## Sample environments for concrete evaluations -/

/-- Sign-in succeeds with tokens `t`/`r`; the benefits call returns a
`main` wallet of 6850 minor units and a `wellness` wallet of 12345
minor units (the worked example of the provider's protocol). -/
def envSample : Env :=
  ⟨.response 200 "" (.ok ⟨"t", "r", 0, "", "", ""⟩),
   .response 200 "" (.ok ⟨[mkWallet "main" "6850", mkWallet "wellness" "12345"]⟩)⟩

/-- Sign-in is rejected with HTTP 401 and body `invalid credentials`;
the benefits endpoint is never consulted. -/
def env401 : Env :=
  ⟨.response 401 "invalid credentials" (.error "no body"),
   .transportError "unreachable"⟩

/-- Sign-in succeeds but the response carries no refresh token; the
benefits call returns an empty wallet list. -/
def envNoRefresh : Env :=
  ⟨.response 200 "" (.ok ⟨"t", "", 0, "", "", ""⟩),
   .response 200 "" (.ok ⟨[]⟩)⟩

/-- Sign-in succeeds; the benefits call returns a single wallet of the
unrecognized type `bogus` whose balance string `abc` is not numeric. -/
def envBogus : Env :=
  ⟨.response 200 "" (.ok ⟨"t", "r", 0, "", "", ""⟩),
   .response 200 "" (.ok ⟨[mkWallet "bogus" "abc"]⟩)⟩

/-- Sign-in succeeds; the benefits call returns only a `main` wallet of
1234 minor units. -/
def envMainOnly : Env :=
  ⟨.response 200 "" (.ok ⟨"t", "r", 0, "", "", ""⟩),
   .response 200 "" (.ok ⟨[mkWallet "main" "1234"]⟩)⟩

/-- Sign-in succeeds; the benefits call returns two `main` wallets, of
100 and 250 minor units. -/
def envTwoMain : Env :=
  ⟨.response 200 "" (.ok ⟨"t", "r", 0, "", "", ""⟩),
   .response 200 "" (.ok ⟨[mkWallet "main" "100", mkWallet "main" "250"]⟩)⟩

/-- Sign-in answers HTTP 200 with a body that carries a non-empty
session token and a non-empty `error` field at the same time. -/
def envTokenAndError : Env :=
  ⟨.response 200 "" (.ok ⟨"tok", "r", 0, "oops", "", ""⟩),
   .transportError "unused"⟩

/-! ## Basic lemmas about the client functions -/

theorem signIn_pair (env : Env) :
    signIn env = ([NetEvent.signInCall], (signIn env).2) := rfl

theorem getUserBenefits_pair (stk rtk : String) (env : Env) :
    getUserBenefits stk rtk env =
      ([NetEvent.benefitsCall (benefitCookies stk rtk)],
       (getUserBenefits stk rtk env).2) := rfl

theorem signIn_status_ne (env : Env) (st : Nat) (raw : String)
    (dec : Except String SignInResponse)
    (h : env.signInResult = .response st raw dec) (hst : st ≠ 200) :
    (signIn env).2 =
      .error ("unexpected status " ++ toString st ++ ": " ++ readRespBody raw) := by
  simp [signIn, h, hst]

theorem getUserBenefits_status_ne (stk rtk : String) (env : Env) (st : Nat)
    (raw : String) (dec : Except String UserBenefitsResponse)
    (h : env.benefitsResult = .response st raw dec) (hst : st ≠ 200) :
    (getUserBenefits stk rtk env).2 =
      .error ("unexpected status " ++ toString st ++ ": " ++ readRespBody raw) := by
  simp [getUserBenefits, h, hst]

theorem getUserBenefits_ok (stk rtk : String) (env : Env) (raw : String)
    (bs : List UserBenefit)
    (h : env.benefitsResult = .response 200 raw (.ok ⟨bs⟩)) :
    (getUserBenefits stk rtk env).2 = .ok bs := by
  simp [getUserBenefits, h]

theorem FetchBalances_signIn_error (u p : String) (env : Env) (e : String)
    (hc : ¬(u = "" ∨ p = "")) (h : (signIn env).2 = .error e) :
    FetchBalances u p env =
      ([NetEvent.signInCall], .error ("signin failed: " ++ e)) := by
  simp only [FetchBalances, if_neg hc, h]
  rfl

theorem FetchBalances_after_signIn (u p : String) (env : Env) (s : SignInResponse)
    (hc : ¬(u = "" ∨ p = "")) (h : (signIn env).2 = .ok s) :
    FetchBalances u p env =
      ([NetEvent.signInCall,
        NetEvent.benefitsCall (benefitCookies s.SessionToken s.RefreshToken)],
       match (getUserBenefits s.SessionToken s.RefreshToken env).2 with
       | .error e => .error ("fetching balances failed: " ++ e)
       | .ok benefits => foldBenefits benefits ⟨0, 0⟩) := by
  simp only [FetchBalances, if_neg hc, h]
  cases hg : (getUserBenefits s.SessionToken s.RefreshToken env).2 <;> rfl

/-! ## Lemmas about the wallet fold -/

theorem foldBenefits_append (xs ys : List UserBenefit) (acc : Balances) :
    foldBenefits (xs ++ ys) acc =
      match foldBenefits xs acc with
      | .error e => .error e
      | .ok a => foldBenefits ys a := by
  induction xs generalizing acc with
  | nil => simp [foldBenefits]
  | cons b rest ih =>
    rw [List.cons_append, foldBenefits, foldBenefits]
    cases balanceFloat64 b with
    | error e => rfl
    | ok v => exact ih _

theorem foldBenefits_append_ok (xs ys : List UserBenefit) (acc a : Balances)
    (h : foldBenefits xs acc = .ok a) :
    foldBenefits (xs ++ ys) acc = foldBenefits ys a := by
  rw [foldBenefits_append, h]

theorem foldBenefits_append_error (xs ys : List UserBenefit) (acc : Balances)
    (e : String) (h : foldBenefits xs acc = .error e) :
    foldBenefits (xs ++ ys) acc = .error e := by
  rw [foldBenefits_append, h]

theorem foldBenefits_skip (b : UserBenefit) (rest : List UserBenefit)
    (acc : Balances) (v : ℚ)
    (h1 : b.WalletType ≠ "main") (h2 : b.WalletType ≠ "wellness")
    (hv : balanceFloat64 b = .ok v) :
    foldBenefits (b :: rest) acc = foldBenefits rest acc := by
  simp [foldBenefits, hv, h1, h2]

theorem foldBenefits_lunch_stable :
    ∀ (bs : List UserBenefit) (acc r : Balances),
      (∀ b ∈ bs, b.WalletType ≠ "main") →
      foldBenefits bs acc = .ok r → r.Lunch = acc.Lunch := by
  intro bs
  induction bs with
  | nil =>
    intro acc r _ hr
    rw [foldBenefits] at hr
    cases hr
    rfl
  | cons b rest ih =>
    intro acc r h hr
    rw [foldBenefits] at hr
    cases hv : balanceFloat64 b with
    | error e =>
      rw [hv] at hr
      exact absurd hr (by simp)
    | ok v =>
      rw [hv] at hr
      have hb := h b (List.mem_cons_self b rest)
      have htail := ih _ _ (fun c hc => h c (List.mem_cons_of_mem b hc)) hr
      by_cases hw : b.WalletType = "wellness"
      · simpa [hb, hw] using htail
      · simpa [hb, hw] using htail

theorem foldBenefits_virike_stable :
    ∀ (bs : List UserBenefit) (acc r : Balances),
      (∀ b ∈ bs, b.WalletType ≠ "wellness") →
      foldBenefits bs acc = .ok r → r.Virike = acc.Virike := by
  intro bs
  induction bs with
  | nil =>
    intro acc r _ hr
    rw [foldBenefits] at hr
    cases hr
    rfl
  | cons b rest ih =>
    intro acc r h hr
    rw [foldBenefits] at hr
    cases hv : balanceFloat64 b with
    | error e =>
      rw [hv] at hr
      exact absurd hr (by simp)
    | ok v =>
      rw [hv] at hr
      have hb := h b (List.mem_cons_self b rest)
      have htail := ih _ _ (fun c hc => h c (List.mem_cons_of_mem b hc)) hr
      by_cases hm : b.WalletType = "main"
      · simpa [hb, hm] using htail
      · simpa [hb, hm] using htail

theorem foldBenefits_error_shape :
    ∀ (bs : List UserBenefit) (acc : Balances) (e : String),
      foldBenefits bs acc = .error e →
      ∃ wt e2, e = "parse " ++ wt ++ " balance: " ++ e2 := by
  intro bs
  induction bs with
  | nil =>
    intro acc e h
    rw [foldBenefits] at h
    exact absurd h (by simp)
  | cons b rest ih =>
    intro acc e h
    rw [foldBenefits] at h
    cases hv : balanceFloat64 b with
    | error e1 =>
      rw [hv] at h
      refine ⟨b.WalletType, e1, ?_⟩
      simpa using h.symm
    | ok v =>
      rw [hv] at h
      exact ih _ _ h

theorem fetch_ok_fold (u p : String) (env : Env) (st : Nat) (raw : String)
    (bs : List UserBenefit) (tr : List NetEvent) (r : Balances)
    (hb : env.benefitsResult = .response st raw (.ok ⟨bs⟩))
    (hr : FetchBalances u p env = (tr, .ok r)) :
    foldBenefits bs ⟨0, 0⟩ = .ok r := by
  by_cases hc : u = "" ∨ p = ""
  · rw [FetchBalances, if_pos hc] at hr
    exact absurd hr (by simp)
  cases hs : (signIn env).2 with
  | error e =>
    rw [FetchBalances_signIn_error u p env e hc hs] at hr
    exact absurd hr (by simp)
  | ok s =>
    rw [FetchBalances_after_signIn u p env s hc hs] at hr
    by_cases h200 : st = 200
    · subst h200
      rw [getUserBenefits_ok s.SessionToken s.RefreshToken env raw bs hb] at hr
      have := congrArg Prod.snd hr
      simpa using this
    · rw [getUserBenefits_status_ne s.SessionToken s.RefreshToken env st raw _ hb h200] at hr
      exact absurd hr (by simp)

/-! ## Claim C3: integer balances are minor currency units -/

/-- C3, counterexample: the balance string of the whole number
2^63 = 9223372036854775808 does not fit a signed 64-bit integer, so the
integer parse fails and `balanceFloat64` falls back to the general
numeric parse, returning the value as-is instead of N / 100. -/
theorem int64_overflow_balance_not_divided_cex :
    balanceFloat64 (mkWallet "main" "9223372036854775808") =
      .ok (9223372036854775808 : ℚ) ∧
    (9223372036854775808 : ℚ) ≠ (9223372036854775808 : ℚ) / 100 := by
  exact ⟨by decide, by decide⟩

/-- C3 (amended): for every wallet whose balance string parses as a
64-bit integer N, the normalized balance is N / 100 — the value is
interpreted as minor currency units. -/
theorem integer_balance_minor_units (b : UserBenefit) (n : Int)
    (h : parseInt64 b.Balance = some n) :
    balanceFloat64 b = .ok ((n : ℚ) / 100) := by
  have hne : b.Balance ≠ "" := by
    intro he
    rw [he] at h
    have hnone : parseInt64 "" = none := by decide
    rw [hnone] at h
    exact Option.noConfusion h
  rw [balanceFloat64, if_neg hne, h]

/-- C3, witness: the wallet with balance string `6850` parses as the
integer 6850 and normalizes to 68.50. -/
theorem integer_balance_minor_units_witness :
    parseInt64 (mkWallet "main" "6850").Balance = some 6850 ∧
    balanceFloat64 (mkWallet "main" "6850") = .ok (((6850 : Int) : ℚ) / 100) :=
  ⟨by decide, integer_balance_minor_units (mkWallet "main" "6850") 6850 (by decide)⟩

/-! ## Claim C6: fractional balances are used as-is -/

/-- C6: a balance string that fails the integer parse but passes the
general numeric parse with value F is used as-is (already major units),
not divided by 100; in particular every balance serialized with a
fractional component is used as-is. -/
theorem fractional_balance_used_as_is (b : UserBenefit) (f : ℚ)
    (hi : parseInt64 b.Balance = none)
    (hf : parseFloat b.Balance = .ok f) :
    balanceFloat64 b = .ok f := by
  have hne : b.Balance ≠ "" := by
    intro he
    rw [he] at hf
    have herr : parseFloat "" =
        .error "strconv.ParseFloat: parsing \"\": invalid syntax" := by decide
    rw [herr] at hf
    exact Except.noConfusion hf
  rw [balanceFloat64, if_neg hne, hi, hf]

/-- C6, witness: the balance string `12.34` fails the integer parse,
parses as the rational 12.34, and is normalized to exactly 12.34. -/
theorem fractional_balance_used_as_is_witness :
    parseInt64 (mkWallet "main" "12.34").Balance = none ∧
    parseFloat (mkWallet "main" "12.34").Balance = .ok ((1234 : ℚ) / 100) ∧
    balanceFloat64 (mkWallet "main" "12.34") = .ok ((1234 : ℚ) / 100) :=
  ⟨by decide, by decide,
   fractional_balance_used_as_is (mkWallet "main" "12.34") ((1234 : ℚ) / 100)
     (by decide) (by decide)⟩

/-! ## Claim C7: empty and invalid balance fields -/

/-- C7: an empty balance field normalizes to 0 without error; a
non-empty balance that is neither a valid integer nor a valid number is
a parse error, and the wallet loop wraps it into a message naming the
offending wallet type. -/
theorem balance_empty_and_invalid_handling :
    (∀ b : UserBenefit, b.Balance = "" → balanceFloat64 b = .ok 0) ∧
    (∀ (b : UserBenefit) (e : String), b.Balance ≠ "" →
      parseInt64 b.Balance = none → parseFloat b.Balance = .error e →
      balanceFloat64 b = .error e) ∧
    (∀ (b : UserBenefit) (rest : List UserBenefit) (acc : Balances) (e : String),
      balanceFloat64 b = .error e →
      foldBenefits (b :: rest) acc =
        .error ("parse " ++ b.WalletType ++ " balance: " ++ e)) := by
  refine ⟨?_, ?_, ?_⟩
  · intro b hb
    rw [balanceFloat64, if_pos hb]
  · intro b e hne hi hf
    rw [balanceFloat64, if_neg hne, hi, hf]
  · intro b rest acc e he
    rw [foldBenefits, he]

/-- C7, witness: an empty balance yields 0; the balance string `abc`
fails both parses and yields a parse error which the wallet loop
reports under the wallet's type `bogus`. -/
theorem balance_empty_and_invalid_handling_witness :
    balanceFloat64 (mkWallet "main" "") = .ok 0 ∧
    balanceFloat64 (mkWallet "bogus" "abc") =
      .error "strconv.ParseFloat: parsing \"abc\": invalid syntax" ∧
    foldBenefits [mkWallet "bogus" "abc"] ⟨0, 0⟩ =
      .error "parse bogus balance: strconv.ParseFloat: parsing \"abc\": invalid syntax" := by
  refine ⟨?_, ?_, ?_⟩
  · exact balance_empty_and_invalid_handling.1 (mkWallet "main" "") rfl
  · exact balance_empty_and_invalid_handling.2.1 (mkWallet "bogus" "abc")
      "strconv.ParseFloat: parsing \"abc\": invalid syntax"
      (by decide) (by decide) (by decide)
  · exact balance_empty_and_invalid_handling.2.2 (mkWallet "bogus" "abc") [] ⟨0, 0⟩
      "strconv.ParseFloat: parsing \"abc\": invalid syntax"
      (balance_empty_and_invalid_handling.2.1 (mkWallet "bogus" "abc")
        "strconv.ParseFloat: parsing \"abc\": invalid syntax"
        (by decide) (by decide) (by decide))

/-! ## Claim C8: absent wallet types default to zero -/

/-- C8: in a successful FetchBalances run, a recognized wallet type
absent from the benefits response leaves the corresponding result field
at its zero default. -/
theorem absent_wallet_type_defaults_zero (u p : String) (env : Env)
    (st : Nat) (raw : String) (bs : List UserBenefit)
    (tr : List NetEvent) (r : Balances)
    (hb : env.benefitsResult = .response st raw (.ok ⟨bs⟩))
    (hr : FetchBalances u p env = (tr, .ok r)) :
    ((∀ b ∈ bs, b.WalletType ≠ "main") → r.Lunch = 0) ∧
    ((∀ b ∈ bs, b.WalletType ≠ "wellness") → r.Virike = 0) := by
  have hfold := fetch_ok_fold u p env st raw bs tr r hb hr
  exact ⟨fun h => foldBenefits_lunch_stable bs ⟨0, 0⟩ r h hfold,
         fun h => foldBenefits_virike_stable bs ⟨0, 0⟩ r h hfold⟩

/-- C8, witness: a response containing only a `main` wallet of 1234
minor units yields a wellness balance of 0. -/
theorem absent_wallet_type_defaults_zero_witness :
    FetchBalances "u" "p" envMainOnly =
      ([NetEvent.signInCall,
        NetEvent.benefitsCall [("X-Access-Token", "t"), ("X-Access-Refresh-Token", "r")]],
       .ok ⟨617 / 50, 0⟩) ∧
    (Balances.mk (617 / 50) 0).Virike = 0 := by
  have hfetch : FetchBalances "u" "p" envMainOnly =
      ([NetEvent.signInCall,
        NetEvent.benefitsCall [("X-Access-Token", "t"), ("X-Access-Refresh-Token", "r")]],
       .ok ⟨617 / 50, 0⟩) := by decide
  refine ⟨hfetch, ?_⟩
  exact (absent_wallet_type_defaults_zero "u" "p" envMainOnly 200 ""
    [mkWallet "main" "1234"] _ _ rfl hfetch).2 (by decide)

/-! ## Claim C10: the last wallet of a duplicated type wins -/

/-- C10: in a successful FetchBalances run, when the benefits list
decomposes around a wallet `b` of a recognized type with no later
wallet of that type, the corresponding result field is exactly `b`'s
normalized balance — later entries overwrite earlier ones. -/
theorem duplicate_wallet_last_wins (u p : String) (env : Env)
    (st : Nat) (raw : String) (bs : List UserBenefit)
    (tr : List NetEvent) (r : Balances)
    (hb : env.benefitsResult = .response st raw (.ok ⟨bs⟩))
    (hr : FetchBalances u p env = (tr, .ok r)) :
    (∀ (xs ys : List UserBenefit) (b : UserBenefit) (v : ℚ),
      bs = xs ++ b :: ys → b.WalletType = "main" →
      (∀ c ∈ ys, c.WalletType ≠ "main") →
      balanceFloat64 b = .ok v → r.Lunch = v) ∧
    (∀ (xs ys : List UserBenefit) (b : UserBenefit) (v : ℚ),
      bs = xs ++ b :: ys → b.WalletType = "wellness" →
      (∀ c ∈ ys, c.WalletType ≠ "wellness") →
      balanceFloat64 b = .ok v → r.Virike = v) := by
  have hfold := fetch_ok_fold u p env st raw bs tr r hb hr
  constructor
  · intro xs ys b v hbs hm hys hv
    subst hbs
    cases hxs : foldBenefits xs ⟨0, 0⟩ with
    | error e =>
      rw [foldBenefits_append_error xs (b :: ys) ⟨0, 0⟩ e hxs] at hfold
      exact absurd hfold (by simp)
    | ok a =>
      rw [foldBenefits_append_ok xs (b :: ys) ⟨0, 0⟩ a hxs] at hfold
      rw [foldBenefits, hv] at hfold
      simp [hm] at hfold
      have := foldBenefits_lunch_stable ys _ r hys hfold
      simpa using this
  · intro xs ys b v hbs hw hys hv
    subst hbs
    cases hxs : foldBenefits xs ⟨0, 0⟩ with
    | error e =>
      rw [foldBenefits_append_error xs (b :: ys) ⟨0, 0⟩ e hxs] at hfold
      exact absurd hfold (by simp)
    | ok a =>
      rw [foldBenefits_append_ok xs (b :: ys) ⟨0, 0⟩ a hxs] at hfold
      rw [foldBenefits, hv] at hfold
      simp [hw] at hfold
      have := foldBenefits_virike_stable ys _ r hys hfold
      simpa using this

/-- C10, witness: two `main` wallets of 100 and 250 minor units yield a
lunch balance of 2.50 — the later wallet's value. -/
theorem duplicate_wallet_last_wins_witness :
    FetchBalances "u" "p" envTwoMain =
      ([NetEvent.signInCall,
        NetEvent.benefitsCall [("X-Access-Token", "t"), ("X-Access-Refresh-Token", "r")]],
       .ok ⟨5 / 2, 0⟩) ∧
    (Balances.mk (5 / 2) 0).Lunch = 5 / 2 := by
  have hfetch : FetchBalances "u" "p" envTwoMain =
      ([NetEvent.signInCall,
        NetEvent.benefitsCall [("X-Access-Token", "t"), ("X-Access-Refresh-Token", "r")]],
       .ok ⟨5 / 2, 0⟩) := by decide
  refine ⟨hfetch, ?_⟩
  exact (duplicate_wallet_last_wins "u" "p" envTwoMain 200 ""
      [mkWallet "main" "100", mkWallet "main" "250"] _ _ rfl hfetch).1
    [mkWallet "main" "100"] [] (mkWallet "main" "250") (5 / 2)
    rfl rfl (by simp) (by decide)

/-! ## Claim C5: failures are wrapped with the failing stage -/

/-- C5: with non-empty credentials, every FetchBalances failure message
identifies its stage (`signin failed: `, `fetching balances failed: `
or `parse <wallet> balance: `); a sign-in failure aborts the run before
any benefits call; and a sign-in answered with a non-200 status in
particular yields an error containing `signin failed`. -/
theorem fetchBalances_stage_errors (u p : String) (env : Env)
    (hu : u ≠ "") (hp : p ≠ "") :
    (∀ e, (FetchBalances u p env).2 = .error e →
      (∃ e2, e = "signin failed: " ++ e2) ∨
      (∃ e2, e = "fetching balances failed: " ++ e2) ∨
      (∃ wt e2, e = "parse " ++ wt ++ " balance: " ++ e2)) ∧
    (∀ e, (signIn env).2 = .error e →
      FetchBalances u p env =
        ([NetEvent.signInCall], .error ("signin failed: " ++ e))) ∧
    (∀ (st : Nat) (raw : String) (dec : Except String SignInResponse),
      env.signInResult = .response st raw dec → st ≠ 200 →
      (FetchBalances u p env).2 =
        .error ("signin failed: " ++
          ("unexpected status " ++ toString st ++ ": " ++ readRespBody raw))) := by
  have hc : ¬(u = "" ∨ p = "") := by
    intro h
    cases h with
    | inl h => exact hu h
    | inr h => exact hp h
  refine ⟨?_, ?_, ?_⟩
  · intro e he
    cases hs : (signIn env).2 with
    | error e1 =>
      rw [FetchBalances_signIn_error u p env e1 hc hs] at he
      exact Or.inl ⟨e1, by simpa using he.symm⟩
    | ok s =>
      rw [FetchBalances_after_signIn u p env s hc hs] at he
      cases hg : (getUserBenefits s.SessionToken s.RefreshToken env).2 with
      | error e1 =>
        rw [hg] at he
        exact Or.inr (Or.inl ⟨e1, by simpa using he.symm⟩)
      | ok benefits =>
        rw [hg] at he
        exact Or.inr (Or.inr
          (foldBenefits_error_shape benefits ⟨0, 0⟩ e (by simpa using he)))
  · intro e he
    exact FetchBalances_signIn_error u p env e hc he
  · intro st raw dec hresp hst
    have hs := signIn_status_ne env st raw dec hresp hst
    rw [FetchBalances_signIn_error u p env _ hc hs]

/-- C5, witness: a sign-in answered with HTTP 401 and body
`invalid credentials` makes FetchBalances fail with the message
`signin failed: unexpected status 401: invalid credentials`. -/
theorem fetchBalances_stage_errors_witness :
    (FetchBalances "u" "p" env401).2 =
      .error ("signin failed: " ++
        ("unexpected status " ++ toString (401 : Nat) ++ ": " ++
          readRespBody "invalid credentials")) :=
  (fetchBalances_stage_errors "u" "p" env401 (by decide) (by decide)).2.2
    401 "invalid credentials" (.error "no body") rfl (by decide)

/-! ## Claim C2: unrecognized wallet types -/

/-- C2, counterexample: a wallet of the unrecognized type `bogus`
whose balance string `abc` is not numeric makes FetchBalances fail, so
wallets of unrecognized type are not fully ignored. -/
theorem unrecognized_wallet_failure_cex :
    (mkWallet "bogus" "abc").WalletType ≠ "main" ∧
    (mkWallet "bogus" "abc").WalletType ≠ "wellness" ∧
    (FetchBalances "u" "p" envBogus).2 =
      .error "parse bogus balance: strconv.ParseFloat: parsing \"abc\": invalid syntax" := by
  exact ⟨by decide, by decide, by decide⟩

/-- C2 (amended): a wallet of unrecognized type whose balance parses
never affects the outcome: FetchBalances returns the same trace and the
same result whether or not the wallet is present.  (Its balance is
still parsed first, so an unparseable balance remains an error.) -/
theorem unrecognized_wallet_parseable_ignored (u p : String)
    (env env2 : Env) (xs ys : List UserBenefit) (b : UserBenefit)
    (st : Nat) (raw : String) (v : ℚ)
    (hm : b.WalletType ≠ "main") (hw : b.WalletType ≠ "wellness")
    (hv : balanceFloat64 b = .ok v)
    (hsame : env.signInResult = env2.signInResult)
    (hb : env.benefitsResult = .response st raw (.ok ⟨xs ++ b :: ys⟩))
    (hb2 : env2.benefitsResult = .response st raw (.ok ⟨xs ++ ys⟩)) :
    FetchBalances u p env = FetchBalances u p env2 := by
  by_cases hc : u = "" ∨ p = ""
  · rw [FetchBalances, FetchBalances, if_pos hc, if_pos hc]
  · have hsign : (signIn env).2 = (signIn env2).2 := by
      simp only [signIn, hsame]
    cases hs : (signIn env).2 with
    | error e =>
      have hs2 : (signIn env2).2 = .error e := by rw [← hsign, hs]
      rw [FetchBalances_signIn_error u p env e hc hs,
          FetchBalances_signIn_error u p env2 e hc hs2]
    | ok s =>
      have hs2 : (signIn env2).2 = .ok s := by rw [← hsign, hs]
      rw [FetchBalances_after_signIn u p env s hc hs,
          FetchBalances_after_signIn u p env2 s hc hs2]
      by_cases h200 : st = 200
      · subst h200
        rw [getUserBenefits_ok s.SessionToken s.RefreshToken env raw _ hb,
            getUserBenefits_ok s.SessionToken s.RefreshToken env2 raw _ hb2]
        have heq : foldBenefits (xs ++ b :: ys) ⟨0, 0⟩ =
            foldBenefits (xs ++ ys) ⟨0, 0⟩ := by
          cases hxs : foldBenefits xs ⟨0, 0⟩ with
          | error e =>
            rw [foldBenefits_append_error xs (b :: ys) ⟨0, 0⟩ e hxs,
                foldBenefits_append_error xs ys ⟨0, 0⟩ e hxs]
          | ok a =>
            rw [foldBenefits_append_ok xs (b :: ys) ⟨0, 0⟩ a hxs,
                foldBenefits_append_ok xs ys ⟨0, 0⟩ a hxs]
            exact foldBenefits_skip b ys a v hm hw hv
        exact congrArg
          (fun z => (([NetEvent.signInCall,
            NetEvent.benefitsCall (benefitCookies s.SessionToken s.RefreshToken)] :
              List NetEvent), z)) heq
      · rw [getUserBenefits_status_ne s.SessionToken s.RefreshToken env st raw _ hb h200,
            getUserBenefits_status_ne s.SessionToken s.RefreshToken env2 st raw _ hb2 h200]

/-- C2, witness: a `bogus` wallet of balance 5 between the two
recognized wallets leaves the result of the sample run unchanged. -/
theorem unrecognized_wallet_parseable_ignored_witness :
    FetchBalances "u" "p"
        ⟨.response 200 "" (.ok ⟨"t", "r", 0, "", "", ""⟩),
         .response 200 ""
           (.ok ⟨[mkWallet "main" "6850", mkWallet "bogus" "5",
                  mkWallet "wellness" "12345"]⟩)⟩ =
      FetchBalances "u" "p" envSample :=
  unrecognized_wallet_parseable_ignored "u" "p"
    ⟨.response 200 "" (.ok ⟨"t", "r", 0, "", "", ""⟩),
     .response 200 ""
       (.ok ⟨[mkWallet "main" "6850", mkWallet "bogus" "5",
              mkWallet "wellness" "12345"]⟩)⟩
    envSample [mkWallet "main" "6850"] [mkWallet "wellness" "12345"]
    (mkWallet "bogus" "5") 200 "" ((5 : ℚ) / 100)
    (by decide) (by decide) (by decide) rfl rfl rfl

/-! ## Claim C4: sign-in success and failure conditions -/

/-- C4, counterexample: a 200 response whose body carries both a
non-empty session token and a non-empty `error` field makes sign-in
succeed — the error field alone is not a failure. -/
theorem signIn_error_field_with_token_succeeds_cex :
    (signIn envTokenAndError).2 =
      .ok ⟨"tok", "r", 0, "oops", "", ""⟩ ∧
    (SignInResponse.mk "tok" "r" 0 "oops" "" "").Error ≠ "" := by
  exact ⟨by decide, by decide⟩

/-- C4 (amended): sign-in succeeds exactly on HTTP status 200 with a
decoded body whose session token is non-empty; a non-200 status is a
failure carrying the status and body excerpt, and an empty session
token is a failure whose message is the body's `error` field when that
field is non-empty.  An `error` field alongside a non-empty session
token does not prevent success. -/
theorem signIn_success_characterization (env : Env) :
    (∀ r, (signIn env).2 = .ok r →
      (∃ raw, env.signInResult = .response 200 raw (.ok r)) ∧
      r.SessionToken ≠ "") ∧
    (∀ (st : Nat) (raw : String) (dec : Except String SignInResponse),
      env.signInResult = .response st raw dec → st ≠ 200 →
      (signIn env).2 =
        .error ("unexpected status " ++ toString st ++ ": " ++ readRespBody raw)) ∧
    (∀ (raw : String) (r : SignInResponse),
      env.signInResult = .response 200 raw (.ok r) → r.SessionToken = "" →
      (signIn env).2 =
        .error (if r.Error ≠ "" then r.Error
                else "empty session token in response")) ∧
    (∀ (raw : String) (r : SignInResponse),
      env.signInResult = .response 200 raw (.ok r) → r.SessionToken ≠ "" →
      (signIn env).2 = .ok r) := by
  refine ⟨?_, ?_, ?_, ?_⟩
  · intro r hr
    cases henv : env.signInResult with
    | transportError m =>
      simp only [signIn, henv] at hr
      exact absurd hr (by simp)
    | response st raw dec =>
      simp only [signIn, henv] at hr
      by_cases h200 : st = 200
      · subst h200
        rw [if_neg (by simp)] at hr
        cases dec with
        | error e => exact absurd hr (by simp)
        | ok r2 =>
          have hr2 : (if r2.SessionToken = "" then
              (if r2.Error ≠ "" then Except.error r2.Error
               else Except.error "empty session token in response")
            else Except.ok r2) = Except.ok r := hr
          by_cases ht : r2.SessionToken = ""
          · rw [if_pos ht] at hr2
            split at hr2 <;> exact absurd hr2 (by simp)
          · rw [if_neg ht] at hr2
            injection hr2 with h2
            subst h2
            exact ⟨⟨raw, rfl⟩, ht⟩
      · rw [if_pos h200] at hr
        exact absurd hr (by simp)
  · intro st raw dec hresp hst
    exact signIn_status_ne env st raw dec hresp hst
  · intro raw r hresp ht
    simp only [signIn, hresp]
    rw [if_neg (by simp), if_pos ht]
    by_cases he : r.Error = "" <;> simp [he]
  · intro raw r hresp ht
    simp only [signIn, hresp]
    rw [if_neg (by simp), if_neg ht]

/-- C4, witness: a 200 response with session token `tok` signs in
successfully, and a 401 response is rejected with its status. -/
theorem signIn_success_characterization_witness :
    (signIn envTokenAndError).2 = .ok ⟨"tok", "r", 0, "oops", "", ""⟩ ∧
    (signIn env401).2 =
      .error ("unexpected status " ++ toString (401 : Nat) ++ ": " ++
        readRespBody "invalid credentials") :=
  ⟨(signIn_success_characterization envTokenAndError).2.2.2 ""
      ⟨"tok", "r", 0, "oops", "", ""⟩ rfl (by decide),
   (signIn_success_characterization env401).2.1 401 "invalid credentials"
      (.error "no body") rfl (by decide)⟩

/-! ## Claim C9: cookies on the benefits request -/

/-- C9, counterexample: when sign-in yields an empty refresh token, the
benefits request of the same FetchBalances run carries only the
X-Access-Token cookie — no X-Access-Refresh-Token cookie is sent. -/
theorem empty_refresh_token_cookie_omitted_cex :
    FetchBalances "u" "p" envNoRefresh =
      ([NetEvent.signInCall,
        NetEvent.benefitsCall [("X-Access-Token", "t")]],
       .ok ⟨0, 0⟩) ∧
    [("X-Access-Token", "t")] ≠
      [("X-Access-Token", "t"), ("X-Access-Refresh-Token", "")] := by
  exact ⟨by decide, by decide⟩

/-- C9 (amended): the benefits request carries a cookie named
X-Access-Token holding the session token and a cookie named
X-Access-Refresh-Token holding the refresh token, each exactly when
that token is non-empty; in particular with both tokens non-empty both
cookies are sent, in that order, with the token strings as values. -/
theorem benefits_request_cookies (stk rtk : String) (env : Env) :
    ((getUserBenefits stk rtk env).1 =
      [NetEvent.benefitsCall
        ((if stk ≠ "" then [("X-Access-Token", stk)] else []) ++
         (if rtk ≠ "" then [("X-Access-Refresh-Token", rtk)] else []))]) ∧
    (stk ≠ "" → rtk ≠ "" →
      (getUserBenefits stk rtk env).1 =
        [NetEvent.benefitsCall
          [("X-Access-Token", stk), ("X-Access-Refresh-Token", rtk)]]) := by
  constructor
  · rfl
  · intro hs hr
    simp [getUserBenefits, benefitCookies, hs, hr]

/-- C9, witness: with session token `t` and refresh token `r` both
non-empty, the benefits request carries both cookies with those
values. -/
theorem benefits_request_cookies_witness :
    (getUserBenefits "t" "r" envSample).1 =
      [NetEvent.benefitsCall
        [("X-Access-Token", "t"), ("X-Access-Refresh-Token", "r")]] :=
  (benefits_request_cookies "t" "r" envSample).2 (by decide) (by decide)

/-! ## Claim C1: unsupported format and network calls -/

/-- C1, counterexample: with valid credentials and the unsupported
format `xml`, the shell fails with the usage error only after both
network calls have been made — the trace is not empty. -/
theorem unsupported_format_network_calls_cex :
    run "u" "p" "xml" envSample =
      ([NetEvent.signInCall,
        NetEvent.benefitsCall
          [("X-Access-Token", "t"), ("X-Access-Refresh-Token", "r")]],
       .error "unsupported format \"xml\"") ∧
    ([NetEvent.signInCall,
      NetEvent.benefitsCall
        [("X-Access-Token", "t"), ("X-Access-Refresh-Token", "r")]] :
        List NetEvent) ≠ [] := by
  exact ⟨by decide, by decide⟩

/-- C1 (amended): an unrecognized --format value is rejected with the
usage error `unsupported format "<fmt>"`, but only after FetchBalances
has run: when the fetch succeeds, the returned trace already contains
the sign-in network call. -/
theorem run_unsupported_format_after_fetch (u p fmt : String) (env : Env)
    (tr : List NetEvent) (bal : Balances)
    (hu : u ≠ "") (hp : p ≠ "")
    (ht : toLowerStr fmt ≠ "text") (hj : toLowerStr fmt ≠ "json")
    (hf : FetchBalances u p env = (tr, .ok bal)) :
    run u p fmt env =
      (tr, .error ("unsupported format \"" ++ fmt ++ "\"")) ∧
    NetEvent.signInCall ∈ tr := by
  have hc : ¬(u = "" ∨ p = "") := by
    intro h
    cases h with
    | inl h => exact hu h
    | inr h => exact hp h
  constructor
  · have h1 : (FetchBalances u p env).1 = tr := by rw [hf]
    have h2 : (FetchBalances u p env).2 = .ok bal := by rw [hf]
    simp only [run, if_neg hc, h2, h1, if_neg ht, if_neg hj]
  · cases hs : (signIn env).2 with
    | error e =>
      rw [FetchBalances_signIn_error u p env e hc hs] at hf
      have := congrArg Prod.snd hf
      exact absurd this (by simp)
    | ok s =>
      rw [FetchBalances_after_signIn u p env s hc hs] at hf
      have h1 : ([NetEvent.signInCall,
          NetEvent.benefitsCall (benefitCookies s.SessionToken s.RefreshToken)]) = tr :=
        congrArg Prod.fst hf
      rw [← h1]
      exact List.mem_cons_self _ _

/-- C1, witness: format `xml` with the sample environment yields the
usage error, and the trace contains the sign-in call. -/
theorem run_unsupported_format_after_fetch_witness :
    run "u" "p" "xml" envSample =
      ([NetEvent.signInCall,
        NetEvent.benefitsCall
          [("X-Access-Token", "t"), ("X-Access-Refresh-Token", "r")]],
       .error ("unsupported format \"" ++ "xml" ++ "\"")) ∧
    NetEvent.signInCall ∈
      ([NetEvent.signInCall,
        NetEvent.benefitsCall
          [("X-Access-Token", "t"), ("X-Access-Refresh-Token", "r")]] :
        List NetEvent) :=
  run_unsupported_format_after_fetch "u" "p" "xml" envSample
    [NetEvent.signInCall,
     NetEvent.benefitsCall
       [("X-Access-Token", "t"), ("X-Access-Refresh-Token", "r")]]
    ⟨137 / 2, 2469 / 20⟩
    (by decide) (by decide) (by decide) (by decide) (by decide)

end Edenred
